import Mathlib

/-!
Shallow embedding of the wasmalloc harness driver (src/main.rs) and proofs
about its observable behavior.

The driver is a single Rust function that:
1. reads the command-line arguments; with fewer than two entries it prints a
   usage line and returns Ok,
2. reads the file named by the second argument, translates it with wat2wasm,
   compiles it and instantiates it with an empty import object,
3. looks up six exported functions by name (alloc, dealloc, store, load,
   size, grow), each via get_function followed by unwrap,
4. returns Ok; every call that would exercise the module (lines 44-56 of
   the source) is commented out.

External collaborators (the filesystem, wat2wasm, the wasmer compiler and
instantiator) are parameters of the model, gathered in the Env structure.
The run result records everything observable: printed lines, the outcome
(Ok, propagated Err, or an unwrap panic), which files were read, each
instantiation together with the import list passed to it, the trace of
calls made into the module, and the final instance state.
-/

/-- Wasm value types, as in the sandbox runtime. -/
inductive ValType
  | i32
  | i64
  | f32
  | f64
deriving DecidableEq, BEq

/-- Signature of an exported function: parameter types and result types. -/
structure FuncSig where
  params : List ValType
  results : List ValType
deriving DecidableEq, BEq

/-- An export of an instantiated module: a function with a signature, or a
non-function export (memory, global, table). -/
inductive ExportV
  | func (sig : FuncSig)
  | memory
  | global
  | table
deriving DecidableEq, BEq

/-- The error returned by get_function in the runtime: the export is absent,
or present but not a function. -/
inductive ExportError
  | missing (name : String)
  | incompatibleType
deriving DecidableEq, BEq

/-- A compiled module (the wasm bytes after Module::new). -/
structure ModuleV where
  code : List Nat
deriving DecidableEq, BEq

/-- An instantiated module: its export map and its linear memory bytes. -/
structure InstanceV where
  exports : String → Option ExportV
  memory : List Nat

/-- One import that could be supplied at instantiation (the driver always
supplies none). -/
structure Imprt where
  modName : String
  fieldName : String
deriving DecidableEq, BEq

/-- A call into the module through one of the bound operations. -/
inductive Call
  | alloc (s : Int)
  | dealloc (a : Int)
  | store (a v : Int)
  | load (a : Int)
  | size
  | grow (d : Int)
deriving DecidableEq, BEq

/-- How the process ends: Ok (exit 0), a propagated Err (nonzero exit), or
a panic from unwrap (nonzero exit). -/
inductive Outcome
  | ok
  | err (msg : String)
  | panicked (e : ExportError)
deriving DecidableEq

/-- The environment the driver runs in: argv and the external collaborators
(filesystem read, wat2wasm translation, module compilation, instantiation). -/
structure Env where
  args : List String
  readFile : String → Except String (List Nat)
  wat2wasm : List Nat → Except String (List Nat)
  compile : List Nat → Except String ModuleV
  instantiate : ModuleV → List Imprt → Except String InstanceV

/-- Everything observable about one run of the driver. -/
structure RunResult where
  printed : List String
  outcome : Outcome
  fileReads : List String
  instantiations : List (ModuleV × List Imprt)
  moduleCalls : List Call
  finalInstance : Option InstanceV

/-- The usage line printed when no allocator path is given (main.rs line 12). -/
def usageMessage : String :=
  "Please specify the allocator you want to use e.g. \x27cargo run -- src/1_minimal.wat\x27"

/-- The export names the driver looks up, in source order
(main.rs lines 26-42): alloc, dealloc, store, load, size, grow. -/
def requiredOps : List String :=
  ["alloc", "dealloc", "store", "load", "size", "grow"]

/-- get_function of the runtime: look the name up among the exports; absent
gives Missing, a non-function export gives IncompatibleType. No signature
is checked. -/
def getFunction (inst : InstanceV) (name : String) : Except ExportError FuncSig :=
  match inst.exports name with
  | none => .error (.missing name)
  | some (.func sig) => .ok sig
  | some _ => .error .incompatibleType

/-- Sequentially resolve a list of export names, stopping at the first
failure. This models the chain of get_function(..).unwrap() bindings at
main.rs lines 26-42: the first failing lookup panics before the later
lookups run. -/
def resolveAll (inst : InstanceV) : List String → Except ExportError (List FuncSig)
  | [] => .ok []
  | n :: ns =>
    match getFunction inst n with
    | .error e => .error e
    | .ok f =>
      match resolveAll inst ns with
      | .error e => .error e
      | .ok fs => .ok (f :: fs)

/-- True when the export with this name exists and is a function. -/
def isFuncExport (o : Option ExportV) : Bool :=
  match o with
  | some (.func _) => true
  | _ => false

/-- True when every name in the list resolves to a function export. -/
def allFuncs (inst : InstanceV) (names : List String) : Bool :=
  names.all (fun n => isFuncExport (inst.exports n))

/-- The run of the fn called main in main.rs, as a pure function of the
environment (named mainRun here because the Lean toolchain reserves the
name main for an entry point).

Line by line: argv is collected (line 8); with fewer than two entries the
usage line is printed and the run returns Ok (lines 11-14); otherwise the
file named by args[1] is read and translated by wat2wasm, errors
propagating as Err (lines 17-18); the module is compiled and instantiated
with an empty import object, errors propagating as Err (lines 21-23); the
six operations are resolved with unwrap, a failure panicking (lines 26-42);
all exercising statements are commented out (lines 44-56), so no call is
made into the module and the run returns Ok (line 57). -/
def mainRun (env : Env) : RunResult :=
  if env.args.length < 2 then
    { printed := [usageMessage], outcome := .ok, fileReads := [],
      instantiations := [], moduleCalls := [], finalInstance := none }
  else
    match env.readFile (env.args.getD 1 "") with
    | .error e =>
      { printed := [], outcome := .err e, fileReads := [env.args.getD 1 ""],
        instantiations := [], moduleCalls := [], finalInstance := none }
    | .ok fileData =>
      match env.wat2wasm fileData with
      | .error e =>
        { printed := [], outcome := .err e, fileReads := [env.args.getD 1 ""],
          instantiations := [], moduleCalls := [], finalInstance := none }
      | .ok wasmBytes =>
        match env.compile wasmBytes with
        | .error e =>
          { printed := [], outcome := .err e, fileReads := [env.args.getD 1 ""],
            instantiations := [], moduleCalls := [], finalInstance := none }
        | .ok m =>
          match env.instantiate m [] with
          | .error e =>
            { printed := [], outcome := .err e, fileReads := [env.args.getD 1 ""],
              instantiations := [(m, [])], moduleCalls := [],
              finalInstance := none }
          | .ok inst =>
            match resolveAll inst requiredOps with
            | .error e =>
              { printed := [], outcome := .panicked e, fileReads := [env.args.getD 1 ""],
                instantiations := [(m, [])], moduleCalls := [],
                finalInstance := some inst }
            | .ok _funcs =>
              { printed := [], outcome := .ok, fileReads := [env.args.getD 1 ""],
                instantiations := [(m, [])], moduleCalls := [],
                finalInstance := some inst }

/-- Signature (i32) to (i32), the spec table row for alloc, load and grow. -/
def sigI32toI32 : FuncSig := ⟨[.i32], [.i32]⟩

/-- Signature (i32) to nothing, the spec table row for dealloc. -/
def sigI32toNil : FuncSig := ⟨[.i32], []⟩

/-- Signature (i32, i32) to nothing, the spec table row for store. -/
def sigI32I32toNil : FuncSig := ⟨[.i32, .i32], []⟩

/-- Signature () to (i32), the spec table row for size. -/
def sigNilToI32 : FuncSig := ⟨[], [.i32]⟩

/-- A well-formed allocator instance: it exports exactly the six operations
the driver looks up, each a function with the signature of the spec table,
and no realloc export. -/
def instGood : InstanceV where
  exports := fun n =>
    if n = "alloc" then some (.func sigI32toI32)
    else if n = "dealloc" then some (.func sigI32toNil)
    else if n = "store" then some (.func sigI32I32toNil)
    else if n = "load" then some (.func sigI32toI32)
    else if n = "size" then some (.func sigNilToI32)
    else if n = "grow" then some (.func sigI32toI32)
    else none
  memory := [0, 0, 0, 0]

/-- An environment whose setup steps all succeed, instantiating instGood. -/
def envGood : Env where
  args := ["wasmalloc", "src/1_minimal.wat"]
  readFile := fun _ => .ok [40, 109]
  wat2wasm := fun _ => .ok [0, 97, 115, 109]
  compile := fun b => .ok ⟨b⟩
  instantiate := fun _ _ => .ok instGood

/-- Like instGood except that alloc is exported with the wrong signature:
it takes no parameters and returns nothing, instead of (i32) to (i32). -/
def instWrongSig : InstanceV where
  exports := fun n =>
    if n = "alloc" then some (.func ⟨[], []⟩)
    else if n = "dealloc" then some (.func sigI32toNil)
    else if n = "store" then some (.func sigI32I32toNil)
    else if n = "load" then some (.func sigI32toI32)
    else if n = "size" then some (.func sigNilToI32)
    else if n = "grow" then some (.func sigI32toI32)
    else none
  memory := [0, 0, 0, 0]

/-- An environment whose setup succeeds and instantiates instWrongSig. -/
def envWrongSig : Env where
  args := ["wasmalloc", "src/2_wrong_sig.wat"]
  readFile := fun _ => .ok [40, 109]
  wat2wasm := fun _ => .ok [0, 97, 115, 109]
  compile := fun b => .ok ⟨b⟩
  instantiate := fun _ _ => .ok instWrongSig

/-- An instance exporting only alloc: the other five lookups fail. -/
def instMissing : InstanceV where
  exports := fun n =>
    if n = "alloc" then some (.func sigI32toI32)
    else none
  memory := []

/-- An environment whose setup succeeds and instantiates instMissing. -/
def envMissing : Env where
  args := ["wasmalloc", "src/3_missing.wat"]
  readFile := fun _ => .ok [40, 109]
  wat2wasm := fun _ => .ok [0, 97, 115, 109]
  compile := fun b => .ok ⟨b⟩
  instantiate := fun _ _ => .ok instMissing

/-- An environment where the module file cannot be read. -/
def envReadErr : Env where
  args := ["wasmalloc", "src/absent.wat"]
  readFile := fun _ => .error "No such file or directory (os error 2)"
  wat2wasm := fun _ => .error "unused"
  compile := fun _ => .error "unused"
  instantiate := fun _ _ => .error "unused"

/-- An environment invoked with no module-path argument: argv has a single
entry, the program name. -/
def envNoArgs : Env where
  args := ["wasmalloc"]
  readFile := fun _ => .error "unused"
  wat2wasm := fun _ => .error "unused"
  compile := fun _ => .error "unused"
  instantiate := fun _ _ => .error "unused"

/-- Whether an Except value is the ok variant. -/
def exceptOk {e a : Type} : Except e a → Bool
  | .ok _ => true
  | .error _ => false

/-- A lookup through getFunction succeeds exactly when the export exists
and is a function. -/
theorem getFunction_ok_eq (inst : InstanceV) (n : String) :
    exceptOk (getFunction inst n) = isFuncExport (inst.exports n) := by
  unfold getFunction isFuncExport
  cases inst.exports n with
  | none => rfl
  | some ex => cases ex <;> rfl

/-- The chain of lookups succeeds exactly when every name resolves to a
function export. -/
theorem resolveAll_ok_eq (inst : InstanceV) (names : List String) :
    exceptOk (resolveAll inst names) = allFuncs inst names := by
  induction names with
  | nil => rfl
  | cons n ns ih =>
    have hg := getFunction_ok_eq inst n
    simp only [allFuncs, List.all_cons] at ih ⊢
    unfold resolveAll
    cases hgf : getFunction inst n with
    | error e =>
      rw [hgf] at hg
      simp only [exceptOk] at hg ⊢
      rw [← hg, Bool.false_and]
    | ok f =>
      rw [hgf] at hg
      simp only [exceptOk] at hg
      rw [← hg, Bool.true_and, ← ih]
      cases hr : resolveAll inst ns with
      | error e => rfl
      | ok fs => rfl

/-- The chain of lookups either succeeds with all names resolving to
functions, or fails with some export error and not all names resolving. -/
theorem resolveAll_cases (inst : InstanceV) (names : List String) :
    (allFuncs inst names = true ∧ ∃ fs, resolveAll inst names = .ok fs)
    ∨ (allFuncs inst names = false ∧ ∃ e, resolveAll inst names = .error e) := by
  have h := resolveAll_ok_eq inst names
  cases hr : resolveAll inst names with
  | ok fs =>
    rw [hr] at h
    exact Or.inl ⟨h.symm, fs, rfl⟩
  | error e =>
    rw [hr] at h
    exact Or.inr ⟨h.symm, e, rfl⟩

/-- The driver never records a call into the module: every branch of the
run leaves the call trace empty, since all exercising code is commented
out. -/
theorem mainRun_moduleCalls (env : Env) : (mainRun env).moduleCalls = [] := by
  unfold mainRun
  repeat' split
  all_goals rfl

/-- Under a successful setup (enough arguments, file read, translation,
compilation and instantiation all succeeding), the run reduces to the
resolution of the six export names. -/
theorem mainRun_setup (env : Env) (d b : List Nat) (m : ModuleV)
    (inst : InstanceV)
    (hlen : 2 ≤ env.args.length)
    (hrd : env.readFile (env.args.getD 1 "") = .ok d)
    (hw : env.wat2wasm d = .ok b)
    (hc : env.compile b = .ok m)
    (hi : env.instantiate m [] = .ok inst) :
    mainRun env =
      match resolveAll inst requiredOps with
      | .error e =>
        { printed := [], outcome := .panicked e,
          fileReads := [env.args.getD 1 ""],
          instantiations := [(m, [])], moduleCalls := [],
          finalInstance := some inst }
      | .ok _fs =>
        { printed := [], outcome := .ok,
          fileReads := [env.args.getD 1 ""],
          instantiations := [(m, [])], moduleCalls := [],
          finalInstance := some inst } := by
  have hn : ¬ (env.args.length < 2) := by omega
  unfold mainRun
  rw [if_neg hn]
  simp only [hrd, hw, hc, hi]

/-- A call belonging to the growth scenario: size or grow. -/
def isGrowthCall : Call → Bool
  | .size => true
  | .grow _ => true
  | _ => false

/-- A call belonging to the load-boundary scenario. -/
def isLoadCall : Call → Bool
  | .load _ => true
  | _ => false

/-- The text a report line for a call would begin with, in the format of
the commented-out println statements, e.g. size() or load(65532). -/
def callText : Call → String
  | .alloc s => "alloc(" ++ toString s ++ ")"
  | .dealloc a => "dealloc(" ++ toString a ++ ")"
  | .store a v => "store(" ++ toString a ++ ", " ++ toString v ++ ")"
  | .load a => "load(" ++ toString a ++ ")"
  | .size => "size()"
  | .grow d => "grow(" ++ toString d ++ ")"

/-- Whether a printed line reports the given call: it begins with the
operation name and arguments of the call. -/
def reportsCall (line : String) (c : Call) : Bool :=
  (callText c).isPrefixOf line

/-- One of the four fallible setup steps of the driver fails: the file
read, the wat2wasm translation, the compilation, or the instantiation,
each with the earlier steps succeeding. -/
def setupFails (env : Env) : Prop :=
  (∃ e, env.readFile (env.args.getD 1 "") = .error e)
  ∨ (∃ d e, env.readFile (env.args.getD 1 "") = .ok d
      ∧ env.wat2wasm d = .error e)
  ∨ (∃ d b e, env.readFile (env.args.getD 1 "") = .ok d
      ∧ env.wat2wasm d = .ok b ∧ env.compile b = .error e)
  ∨ (∃ d b m e, env.readFile (env.args.getD 1 "") = .ok d
      ∧ env.wat2wasm d = .ok b ∧ env.compile b = .ok m
      ∧ env.instantiate m [] = .error e)

/-- Claim C1 (amended): at startup the driver looks up six exported
operations — alloc, dealloc, store, load, size, grow — and the run reaches
Ok exactly when each of the six exists and is a function export; realloc
is not among the looked-up names, and no signature check takes place
(the right-to-left direction of the equivalence holds whatever the
signatures of the six function exports are). -/
theorem C1_resolution (env : Env) (d b : List Nat) (m : ModuleV)
    (inst : InstanceV)
    (hlen : 2 ≤ env.args.length)
    (hrd : env.readFile (env.args.getD 1 "") = .ok d)
    (hw : env.wat2wasm d = .ok b)
    (hc : env.compile b = .ok m)
    (hi : env.instantiate m [] = .ok inst) :
    ((mainRun env).outcome = Outcome.ok ↔ allFuncs inst requiredOps = true)
      ∧ requiredOps.contains "realloc" = false
      ∧ requiredOps = ["alloc", "dealloc", "store", "load", "size", "grow"] := by
  have hm := mainRun_setup env d b m inst hlen hrd hw hc hi
  refine ⟨?_, by decide, rfl⟩
  rcases resolveAll_cases inst requiredOps with ⟨ha, fs, hfs⟩ | ⟨ha, e, he⟩
  · rw [hm, hfs]
    exact ⟨fun _ => ha, fun _ => rfl⟩
  · rw [hm, he]
    constructor
    · intro h
      exact Outcome.noConfusion h
    · intro h
      rw [h] at ha
      exact Bool.noConfusion ha

/-- Witness for C1_resolution: on a concrete successful environment whose
instance exports the six functions, the run ends Ok and realloc is not
among the looked-up names. -/
theorem C1_resolution_witness :
    (mainRun envGood).outcome = Outcome.ok
      ∧ requiredOps.contains "realloc" = false := by
  have h := C1_resolution envGood [40, 109] [0, 97, 115, 109]
    ⟨[0, 97, 115, 109]⟩ instGood (by decide) rfl rfl rfl rfl
  exact ⟨h.1.mpr (by decide), h.2.1⟩

/-- Counterexample to claim C1 as stated: a module with no realloc export
at all is accepted — the run ends Ok — so the driver does not resolve
seven operations. -/
theorem C1_counterexample :
    instGood.exports "realloc" = none
      ∧ (mainRun envGood).outcome = Outcome.ok := by
  exact ⟨by decide, by decide⟩

/-- Claim C2 (amended): when one of the six looked-up exports is missing
or is not a function, the run ends in a panic (the unwrap on the failed
lookup) carrying the export error, and this happens before any call is
made into the module. A wrong signature on a function export is not an
error: it is not checked (see the counterexample). -/
theorem C2_abi_failure (env : Env) (d b : List Nat) (m : ModuleV)
    (inst : InstanceV)
    (hlen : 2 ≤ env.args.length)
    (hrd : env.readFile (env.args.getD 1 "") = .ok d)
    (hw : env.wat2wasm d = .ok b)
    (hc : env.compile b = .ok m)
    (hi : env.instantiate m [] = .ok inst)
    (hbad : allFuncs inst requiredOps = false) :
    ∃ e, (mainRun env).outcome = Outcome.panicked e
      ∧ (mainRun env).moduleCalls = [] := by
  have hm := mainRun_setup env d b m inst hlen hrd hw hc hi
  rcases resolveAll_cases inst requiredOps with ⟨ha, _, _⟩ | ⟨_, e, he⟩
  · rw [ha] at hbad
    exact Bool.noConfusion hbad
  · rw [hm, he]
    exact ⟨e, rfl, rfl⟩

/-- Witness for C2_abi_failure: a concrete instance exporting only alloc
makes the run panic with no module call made. -/
theorem C2_abi_failure_witness :
    ∃ e, (mainRun envMissing).outcome = Outcome.panicked e
      ∧ (mainRun envMissing).moduleCalls = [] :=
  C2_abi_failure envMissing [40, 109] [0, 97, 115, 109]
    ⟨[0, 97, 115, 109]⟩ instMissing (by decide) rfl rfl rfl rfl (by decide)

/-- Counterexample to claim C2 as stated: an alloc export whose signature
takes nothing and returns nothing — not the (i32) to (i32) signature of
the ABI table — does not fail the run at all: the run ends Ok and prints
nothing, so no signature mismatch is ever reported. -/
theorem C2_counterexample :
    instWrongSig.exports "alloc" = some (ExportV.func ⟨[], []⟩)
      ∧ (FuncSig.mk [] [] == sigI32toI32) = false
      ∧ (mainRun envWrongSig).outcome = Outcome.ok
      ∧ (mainRun envWrongSig).printed = [] := by
  exact ⟨by decide, by decide, by decide, by decide⟩

/-- Claim C3: invoked with fewer than two argv entries, the driver prints
the usage line and returns Ok (exit code 0), reading no file, performing
no instantiation and making no call into the module. -/
theorem C3_usage (env : Env) (h : env.args.length < 2) :
    mainRun env =
      { printed := [usageMessage], outcome := Outcome.ok, fileReads := [],
        instantiations := [], moduleCalls := [], finalInstance := none } := by
  unfold mainRun
  rw [if_pos h]

/-- Witness for C3_usage: a concrete argv with only the program name. -/
theorem C3_usage_witness :
    mainRun envNoArgs =
      { printed := [usageMessage], outcome := Outcome.ok, fileReads := [],
        instantiations := [], moduleCalls := [], finalInstance := none } :=
  C3_usage envNoArgs (by decide)

/-- Claim C4: a failing setup step — file read, wat2wasm translation,
compilation or instantiation — ends the run with a propagated error
(nonzero exit), no call into the module, and no bound instance. -/
theorem C4_setup_errors (env : Env)
    (hlen : 2 ≤ env.args.length)
    (h : setupFails env) :
    ∃ msg, (mainRun env).outcome = Outcome.err msg
      ∧ (mainRun env).moduleCalls = []
      ∧ (mainRun env).finalInstance = none := by
  have hn : ¬ (env.args.length < 2) := by omega
  unfold mainRun
  rw [if_neg hn]
  rcases h with ⟨e, he⟩ | ⟨d, e, hd, he⟩ | ⟨d, b, e, hd, hb, he⟩
    | ⟨d, b, m, e, hd, hb, hc, he⟩
  · simp only [he]
    exact ⟨e, rfl, trivial, trivial⟩
  · simp only [hd, he]
    exact ⟨e, rfl, trivial, trivial⟩
  · simp only [hd, hb, he]
    exact ⟨e, rfl, trivial, trivial⟩
  · simp only [hd, hb, hc, he]
    exact ⟨e, rfl, trivial, trivial⟩

/-- Witness for C4_setup_errors: a concrete environment whose module file
cannot be read. -/
theorem C4_setup_errors_witness :
    ∃ msg, (mainRun envReadErr).outcome = Outcome.err msg
      ∧ (mainRun envReadErr).moduleCalls = []
      ∧ (mainRun envReadErr).finalInstance = none :=
  C4_setup_errors envReadErr (by decide)
    (Or.inl ⟨"No such file or directory (os error 2)", rfl⟩)

/-- Claim C5 (amended): the growth scenario exists only as commented-out
code; on every run the driver makes no size and no grow call. -/
theorem C5_no_growth_scenario (env : Env) :
    ((mainRun env).moduleCalls.countP (fun c => isGrowthCall c)) = 0 := by
  rw [mainRun_moduleCalls]
  rfl

/-- Counterexample to claim C5 as stated: on a concrete run whose setup
and resolution fully succeed, no size call and no grow call occur and
nothing is printed, so the driver never observes size() returning 1 nor
grow(1) returning 1. -/
theorem C5_counterexample :
    ((mainRun envGood).moduleCalls.contains Call.size) = false
      ∧ ((mainRun envGood).moduleCalls.contains (Call.grow 1)) = false
      ∧ (mainRun envGood).printed = []
      ∧ (mainRun envGood).outcome = Outcome.ok := by
  exact ⟨by decide, by decide, by decide, by decide⟩

/-- Claim C6 (amended): the page-boundary scenario exists only in a
commented-out line; on every run the driver makes no load call, so no
boundary assertion at 65532 or 65533 is ever exercised. -/
theorem C6_no_boundary_scenario (env : Env) :
    ((mainRun env).moduleCalls.countP (fun c => isLoadCall c)) = 0 := by
  rw [mainRun_moduleCalls]
  rfl

/-- Counterexample to claim C6 as stated: on a concrete run whose setup
and resolution fully succeed, neither a load at 65532 nor a load at 65533
occurs and nothing is printed, so the exact page boundary is not
asserted. -/
theorem C6_counterexample :
    ((mainRun envGood).moduleCalls.contains (Call.load 65532)) = false
      ∧ ((mainRun envGood).moduleCalls.contains (Call.load 65533)) = false
      ∧ (mainRun envGood).printed = []
      ∧ (mainRun envGood).outcome = Outcome.ok := by
  exact ⟨by decide, by decide, by decide, by decide⟩

/-- Claim C7: every operation the driver exercises against the module is
reported with its name and arguments on some printed line. This holds
vacuously: the exercising statements are commented out, so the call trace
is empty on every run. -/
theorem C7_reporting (env : Env) :
    ((mainRun env).moduleCalls.all
      (fun c => (mainRun env).printed.any (fun line => reportsCall line c)))
      = true := by
  rw [mainRun_moduleCalls]
  rfl

/-- Claim C8: every instantiation the driver performs passes an empty
list of imports — on the run that reaches instantiation, the recorded
set of imports is empty. -/
theorem C8_empty_imports (env : Env) :
    ((mainRun env).instantiations.all (fun p => p.2.isEmpty)) = true := by
  unfold mainRun
  repeat' split
  all_goals rfl

/-- Claim C9: only the first positional argument (argv entry 1) influences
the run: two invocations sharing that entry, against the same external
collaborators, produce the same run result whatever the program name and
whatever additional arguments follow. -/
theorem C9_extra_args_ignored (a0 b0 a1 : String) (r r2 : List String)
    (rf : String → Except String (List Nat))
    (w : List Nat → Except String (List Nat))
    (c : List Nat → Except String ModuleV)
    (i : ModuleV → List Imprt → Except String InstanceV) :
    mainRun ⟨a0 :: a1 :: r, rf, w, c, i⟩
      = mainRun ⟨b0 :: a1 :: r2, rf, w, c, i⟩ := by
  rfl

/-- Claim C10: when the setup succeeds and every export the driver
requires resolves to a function, the run ends Ok, the call trace is empty
(no bound operation is ever invoked), and the final instance is exactly
the freshly instantiated one — its exports and linear memory untouched. -/
theorem C10_no_calls_after_binding (env : Env) (d b : List Nat)
    (m : ModuleV) (inst : InstanceV)
    (hlen : 2 ≤ env.args.length)
    (hrd : env.readFile (env.args.getD 1 "") = .ok d)
    (hw : env.wat2wasm d = .ok b)
    (hc : env.compile b = .ok m)
    (hi : env.instantiate m [] = .ok inst)
    (hall : allFuncs inst requiredOps = true) :
    (mainRun env).outcome = Outcome.ok
      ∧ (mainRun env).moduleCalls = []
      ∧ (mainRun env).finalInstance = some inst := by
  have hm := mainRun_setup env d b m inst hlen hrd hw hc hi
  rcases resolveAll_cases inst requiredOps with ⟨_, fs, hfs⟩ | ⟨ha, _, _⟩
  · rw [hm, hfs]
    exact ⟨rfl, rfl, rfl⟩
  · rw [ha] at hall
    exact Bool.noConfusion hall

/-- Witness for C10_no_calls_after_binding: the concrete successful
environment binds the six operations and then returns with an empty call
trace and the instance unchanged. -/
theorem C10_no_calls_after_binding_witness :
    (mainRun envGood).outcome = Outcome.ok
      ∧ (mainRun envGood).moduleCalls = []
      ∧ (mainRun envGood).finalInstance = some instGood :=
  C10_no_calls_after_binding envGood [40, 109] [0, 97, 115, 109]
    ⟨[0, 97, 115, 109]⟩ instGood (by decide) rfl rfl rfl rfl (by decide)
